import Mathlib

/-!
Shallow embedding of the performance-monitoring core of
src/openquake/baselib/performance.py: the classes PerformanceMonitor and
DummyMonitor, the record dtype perf_dt, and the operations __init__,
measure_mem, get_data, __enter__, __exit__, on_exit, flush and __call__.

Modelling conventions:
* wall-clock timestamps and durations are rationals (Python floats, exact here);
* resident-set sizes and memory deltas are integers (bytes, as in psutil);
* the external process-memory facility (psutil) is a parameter of type
  MemEnv mapping a process id to either a sample or an access-denied signal;
* external writes (HDF5 appends, dataset creation, console prints) are
  reified as a list of Effect values returned by the operations;
* Python exceptions are values of PyExc; an operation that can raise
  returns the raised value explicitly.
-/

namespace Perf

/-- Python exception values relevant to the monitor code: the TypeError
raised by arithmetic on None, the AttributeError raised by a missing
attribute, and arbitrary user exceptions from the measured block. -/
inductive PyExc where
  | typeError
  | attributeError
  | user (n : Nat)
deriving DecidableEq, Repr

/-- Result of querying the process-memory facility (psutil) for the rss of
a process: a sample in bytes, or the AccessDenied condition. -/
inductive MemResult where
  | ok (rss : Int)
  | accessDenied
deriving DecidableEq, Repr

/-- The external process-memory-introspection facility: what
psutil.Process(pid) followed by memory_info(proc).rss returns for each pid. -/
abbrev MemEnv := Int → MemResult

/-- One row of the numpy dtype perf_dt from performance.py line 52:
operation (a byte string of width at most 50), time_sec, memory_mb, counts. -/
structure Rec where
  operation : String
  time_sec : Rat
  memory_mb : Rat
  counts : Int
deriving DecidableEq, Repr

/-- Externally observable write effects of flush: creating the
performance_data dataset, appending records to it, or printing a record
to standard output. -/
inductive Effect where
  | createDataset (path : String)
  | appendStore (path : String) (recs : List Rec)
  | printRec (r : Rec)
deriving DecidableEq, Repr

/-- State of a PerformanceMonitor object.  The fields mirror the instance
attributes set in __init__ (operation, hdf5path, pid, autoflush,
measuremem, mem, duration, _start_time, children) plus start_mem and exc,
which Python sets in __enter__ / __exit__; before the first entry they are
modelled as none, observationally the same as the attribute being absent
for every operation below.  pid is an Option Int because Python
distinguishes None (never assigned) from 0 (cleared after AccessDenied);
both are falsy in the test of measure_mem. -/
inductive Monitor where
  | mk (operation : String) (hdf5path : Option String) (pid : Option Int)
      (autoflush : Bool) (measuremem : Bool)
      (mem : Int) (duration : Rat) (startTime : Rat)
      (startMem : Option Int) (exc : Option PyExc)
      (children : List Monitor) : Monitor

def Monitor.operation : Monitor → String
  | .mk op _ _ _ _ _ _ _ _ _ _ => op

def Monitor.hdf5path : Monitor → Option String
  | .mk _ h _ _ _ _ _ _ _ _ _ => h

def Monitor.pid : Monitor → Option Int
  | .mk _ _ p _ _ _ _ _ _ _ _ => p

def Monitor.autoflush : Monitor → Bool
  | .mk _ _ _ a _ _ _ _ _ _ _ => a

def Monitor.measuremem : Monitor → Bool
  | .mk _ _ _ _ mm _ _ _ _ _ _ => mm

def Monitor.mem : Monitor → Int
  | .mk _ _ _ _ _ m _ _ _ _ _ => m

def Monitor.duration : Monitor → Rat
  | .mk _ _ _ _ _ _ d _ _ _ _ => d

def Monitor.startTime : Monitor → Rat
  | .mk _ _ _ _ _ _ _ st _ _ _ => st

def Monitor.startMem : Monitor → Option Int
  | .mk _ _ _ _ _ _ _ _ sm _ _ => sm

def Monitor.exc : Monitor → Option PyExc
  | .mk _ _ _ _ _ _ _ _ _ e _ => e

def Monitor.children : Monitor → List Monitor
  | .mk _ _ _ _ _ _ _ _ _ _ c => c

def Monitor.setPid : Monitor → Option Int → Monitor
  | .mk op h _ a mm m d st sm e c, p => .mk op h p a mm m d st sm e c

def Monitor.setMem : Monitor → Int → Monitor
  | .mk op h p a mm _ d st sm e c, m => .mk op h p a mm m d st sm e c

def Monitor.setDuration : Monitor → Rat → Monitor
  | .mk op h p a mm m _ st sm e c, d => .mk op h p a mm m d st sm e c

def Monitor.setStartTime : Monitor → Rat → Monitor
  | .mk op h p a mm m d _ sm e c, st => .mk op h p a mm m d st sm e c

def Monitor.setStartMem : Monitor → Option Int → Monitor
  | .mk op h p a mm m d st _ e c, sm => .mk op h p a mm m d st sm e c

def Monitor.setExc : Monitor → Option PyExc → Monitor
  | .mk op h p a mm m d st sm _ c, e => .mk op h p a mm m d st sm e c

def Monitor.setChildren : Monitor → List Monitor → Monitor
  | .mk op h p a mm m d st sm e _, c => .mk op h p a mm m d st sm e c

/-- PerformanceMonitor.__init__ (performance.py lines 79 to 89): stores the
configuration, zeroes mem and duration, records the construction time as
_start_time and starts with an empty children list. -/
def Monitor.init (operation : String) (hdf5path : Option String)
    (pid : Option Int) (autoflush : Bool) (measuremem : Bool)
    (now : Rat) : Monitor :=
  .mk operation hdf5path pid autoflush measuremem 0 0 now none none []

/-- PerformanceMonitor.measure_mem (lines 91 to 100): when the pid is truthy
(neither None nor 0), query the facility; on success return the rss sample;
on AccessDenied set pid to 0 and fall through, returning None; when the pid
is falsy, return None without querying.  The Python method never raises:
the AccessDenied exception is caught inside it. -/
def measureMem (env : MemEnv) (m : Monitor) : Option Int × Monitor :=
  match m.pid with
  | none => (none, m)
  | some p =>
    if p = 0 then (none, m)
    else
      match env p with
      | .ok rss => (some rss, m)
      | .accessDenied => (none, m.setPid (some 0))

/-- Truncation of the operation name to the 50-byte width of the perf_dt
field; for the ASCII operation names used by the engine one character is
one byte. -/
def trunc50 (s : String) : String := String.mk (s.toList.take 50)

/-- The record emitted by get_data (lines 122 to 126) for one monitor:
operation truncated by the dtype, time_sec from duration, memory_mb from
mem converted bytes to megabytes when measuremem is set and 0 otherwise,
and counts fixed at 1. -/
def recOf (m : Monitor) : Rec :=
  ⟨trunc50 m.operation, m.duration,
   if m.measuremem then (m.mem : Rat) / 1024 / 1024 else 0, 1⟩

/-- PerformanceMonitor.get_data (lines 109 to 127): walk the list
[self] + self.children (direct children only; the children of the children
are not consulted) and emit one record for each entry with truthy (nonzero)
duration. -/
def getData (m : Monitor) : List Rec :=
  (m :: m.children).filterMap
    (fun mon => if mon.duration = 0 then none else some (recOf mon))

/-- The per-monitor reset done in the loop of flush (lines 157 to 159):
mon.duration = 0 and mon.mem = 0, everything else untouched. -/
def zeroAcc (m : Monitor) : Monitor := (m.setDuration 0).setMem 0

/-- The whole reset loop of flush: zero the accumulators of self and of
every direct child. -/
def resetAccum (m : Monitor) : Monitor :=
  (zeroAcc m).setChildren (m.children.map zeroAcc)

/-- Outcome of handing records to the sink: the effects produced, or an
input-output failure while opening or appending to the HDF5 store. -/
inductive SinkResult where
  | ok (effs : List Effect)
  | ioError
deriving DecidableEq, Repr

/-- PerformanceMonitor.flush (lines 151 to 173) with the sink abstracted:
collect the records, reset the accumulators of self and children, and only
then, if there is data, hand it to the sink.  The reset is unconditional
and precedes both the empty check and any write attempt. -/
def flushCore (sink : List Rec → SinkResult) (m : Monitor) :
    Monitor × SinkResult :=
  let data := getData m
  let reset := resetAccum m
  if data.isEmpty then (reset, .ok [])
  else (reset, sink data)

/-- PerformanceMonitor.flush, concrete sink (lines 161 to 173): when
hdf5path is set, open the file, use the existing performance_data dataset
or create it on KeyError (hasDS says whether it exists), append the
records and close; otherwise print each record to standard output. -/
def flush (hasDS : Bool) (m : Monitor) : Monitor × List Effect :=
  let data := getData m
  let reset := resetAccum m
  if data.isEmpty then (reset, [])
  else
    match m.hdf5path with
    | some p =>
      (reset, (if hasDS then [] else [Effect.createDataset p])
        ++ [Effect.appendStore p data])
    | none => (reset, data.map Effect.printRec)

/-- PerformanceMonitor.__enter__ (lines 129 to 136): assign the current
process id only when pid is exactly None (a pid of 0 left by an earlier
AccessDenied is kept), clear exc, record the cycle start time, and when
measuremem is set take the starting memory sample (which may be None). -/
def enterM (env : MemEnv) (ospid : Int) (now : Rat) (m : Monitor) : Monitor :=
  let m1 := match m.pid with
    | none => m.setPid (some ospid)
    | some _ => m
  let m2 := (m1.setExc none).setStartTime now
  if m2.measuremem then
    let r := measureMem env m2
    r.2.setStartMem r.1
  else m2

/-- Result of __exit__: the final monitor state, the effects of an
autoflush if any, the suppress value returned to the with statement
(the Python method has no return statement, hence always falsy, so the
measured-block exception is never suppressed), and the exception raised by
the exit bookkeeping itself, if any. -/
structure ExitResult where
  mon : Monitor
  effs : List Effect
  suppress : Bool
  raised : Option PyExc

/-- PerformanceMonitor.on_exit (lines 146 to 149): flush when autoflush is
set, otherwise do nothing. -/
def onExit (hasDS : Bool) (m : Monitor) : ExitResult :=
  if m.autoflush then
    let r := flush hasDS m
    ⟨r.1, r.2, false, none⟩
  else ⟨m, [], false, none⟩

/-- PerformanceMonitor.__exit__ (lines 138 to 144): store the exception of
the measured block in self.exc; when measuremem is set, take the stop
sample and add stop_mem minus start_mem to mem — when either sample is
None (the pid was falsy or the facility denied access) this subtraction is
None arithmetic and Python raises TypeError at that line, before the
duration update; otherwise add now minus _start_time to duration and run
on_exit.  On the TypeError path the state mutations already performed
(exc, and the pid cleared to 0 by measure_mem) persist, as they do on the
mutable Python object. -/
def exitM (env : MemEnv) (exc : Option PyExc) (now : Rat) (hasDS : Bool)
    (m : Monitor) : ExitResult :=
  let m1 := m.setExc exc
  if m1.measuremem then
    let r := measureMem env m1
    match r.1, r.2.startMem with
    | some s, some t =>
      let m3 := (r.2.setMem (r.2.mem + (s - t)))
      onExit hasDS (m3.setDuration (m3.duration + (now - m3.startTime)))
    | some _, none => ⟨r.2, [], false, some .typeError⟩
    | none, _ => ⟨r.2, [], false, some .typeError⟩
  else
    onExit hasDS (m1.setDuration (m1.duration + (now - m1.startTime)))

/-- Keyword overrides accepted by the child factory, covering the options
documented for it: hdf5path, pid, autoflush, measuremem.  A field of none
means the keyword was not supplied. -/
structure Overrides where
  hdf5path : Option (Option String)
  pid : Option (Option Int)
  autoflush : Option Bool
  measuremem : Option Bool
deriving Repr

def noOverrides : Overrides := ⟨none, none, none, none⟩

/-- Application of the vars(new).update(kw) step of __call__ for the
documented keywords. -/
def applyOverrides (kw : Overrides) (m : Monitor) : Monitor :=
  let m1 := match kw.hdf5path with
    | some v => match m with
      | .mk op _ p a mm mv d st sm e c => .mk op v p a mm mv d st sm e c
    | none => m
  let m2 := match kw.pid with
    | some v => m1.setPid v
    | none => m1
  let m3 := match kw.autoflush with
    | some v => match m2 with
      | .mk op h p _ mm mv d st sm e c => .mk op h p v mm mv d st sm e c
    | none => m2
  match kw.measuremem with
  | some v => match m3 with
    | .mk op h p a _ mv d st sm e c => .mk op h p a v mv d st sm e c
  | none => m3

/-- PerformanceMonitor.__call__ (lines 175 to 187): build a child of the
same class for the new operation, copy every instance attribute of the
parent except operation, children and pid (so hdf5path, autoflush and
measuremem, but also the accumulators mem and duration, _start_time,
start_mem and exc are copied), apply the keyword overrides, append the
child to the parent children list and return it. -/
def callM (m : Monitor) (operation : String) (kw : Overrides) :
    Monitor × Monitor :=
  let child0 : Monitor :=
    .mk operation m.hdf5path none m.autoflush m.measuremem
      m.mem m.duration m.startTime m.startMem m.exc []
  let child := applyOverrides kw child0
  (m.setChildren (m.children ++ [child]), child)

/-- State of a DummyMonitor object: its __init__ (lines 203 to 206) sets
only operation, hdf5path = None and pid = None; it never sets children,
duration, mem or the other PerformanceMonitor attributes. -/
structure DummyMonitor where
  operation : String
  hdf5path : Option String
  pid : Option Int
deriving DecidableEq, Repr

/-- DummyMonitor.__call__ (lines 208 to 209): a fresh DummyMonitor for the
new operation, with default hdf5path and pid; the parent is not touched. -/
def dummyCall (_d : DummyMonitor) (operation : String) : DummyMonitor :=
  ⟨operation, none, none⟩

/-- DummyMonitor.__enter__ (lines 211 to 212): return self unchanged. -/
def dummyEnter (d : DummyMonitor) : DummyMonitor := d

/-- DummyMonitor.__exit__ (lines 214 to 215): pass — no state change, no
effects, returns None so it never suppresses the block exception, and it
never raises. -/
def dummyExit (d : DummyMonitor) (_exc : Option PyExc) :
    DummyMonitor × List Effect × Bool := (d, [], false)

/-- DummyMonitor.flush (lines 217 to 218): pass — no effects. -/
def dummyFlush (d : DummyMonitor) : DummyMonitor × List Effect := (d, [])

/-- get_data invoked on a DummyMonitor.  DummyMonitor does not override
get_data, so PerformanceMonitor.get_data runs and its first step reads
self.children (line 121), an attribute DummyMonitor.__init__ never sets:
Python raises AttributeError before producing any record. -/
def dummyGetData (_d : DummyMonitor) : Except PyExc (List Rec) :=
  .error .attributeError

/-- A monitor with the children of its direct children removed; used to
state that get_data never looks below the first level. -/
def pruneGrandchildren (m : Monitor) : Monitor :=
  m.setChildren (m.children.map (fun c => c.setChildren []))

/-- One enter and exit cycle with no exception from the measured block:
enter at time p.1, exit at time p.2. -/
def cycle1 (env : MemEnv) (ospid : Int) (hasDS : Bool) (m : Monitor)
    (p : Rat × Rat) : Except PyExc Monitor :=
  let r := exitM env none p.2 hasDS (enterM env ospid p.1 m)
  match r.raised with
  | some e => .error e
  | none => .ok r.mon

/-- A sequence of enter and exit cycles at the given times. -/
def runCycles (env : MemEnv) (ospid : Int) (hasDS : Bool) :
    List (Rat × Rat) → Monitor → Except PyExc Monitor
  | [], m => .ok m
  | p :: rest, m =>
    match cycle1 env ospid hasDS m p with
    | .ok m1 => runCycles env ospid hasDS rest m1
    | .error e => .error e

/-! Helper lemmas about the setters and the reset step. -/

@[simp] theorem operation_setPid (m : Monitor) (v : Option Int) : (m.setPid v).operation = m.operation := by
  cases m; rfl

@[simp] theorem hdf5path_setPid (m : Monitor) (v : Option Int) : (m.setPid v).hdf5path = m.hdf5path := by
  cases m; rfl

@[simp] theorem pid_setPid (m : Monitor) (v : Option Int) : (m.setPid v).pid = v := by
  cases m; rfl

@[simp] theorem autoflush_setPid (m : Monitor) (v : Option Int) : (m.setPid v).autoflush = m.autoflush := by
  cases m; rfl

@[simp] theorem measuremem_setPid (m : Monitor) (v : Option Int) : (m.setPid v).measuremem = m.measuremem := by
  cases m; rfl

@[simp] theorem mem_setPid (m : Monitor) (v : Option Int) : (m.setPid v).mem = m.mem := by
  cases m; rfl

@[simp] theorem duration_setPid (m : Monitor) (v : Option Int) : (m.setPid v).duration = m.duration := by
  cases m; rfl

@[simp] theorem startTime_setPid (m : Monitor) (v : Option Int) : (m.setPid v).startTime = m.startTime := by
  cases m; rfl

@[simp] theorem startMem_setPid (m : Monitor) (v : Option Int) : (m.setPid v).startMem = m.startMem := by
  cases m; rfl

@[simp] theorem exc_setPid (m : Monitor) (v : Option Int) : (m.setPid v).exc = m.exc := by
  cases m; rfl

@[simp] theorem children_setPid (m : Monitor) (v : Option Int) : (m.setPid v).children = m.children := by
  cases m; rfl

@[simp] theorem operation_setMem (m : Monitor) (v : Int) : (m.setMem v).operation = m.operation := by
  cases m; rfl

@[simp] theorem hdf5path_setMem (m : Monitor) (v : Int) : (m.setMem v).hdf5path = m.hdf5path := by
  cases m; rfl

@[simp] theorem pid_setMem (m : Monitor) (v : Int) : (m.setMem v).pid = m.pid := by
  cases m; rfl

@[simp] theorem autoflush_setMem (m : Monitor) (v : Int) : (m.setMem v).autoflush = m.autoflush := by
  cases m; rfl

@[simp] theorem measuremem_setMem (m : Monitor) (v : Int) : (m.setMem v).measuremem = m.measuremem := by
  cases m; rfl

@[simp] theorem mem_setMem (m : Monitor) (v : Int) : (m.setMem v).mem = v := by
  cases m; rfl

@[simp] theorem duration_setMem (m : Monitor) (v : Int) : (m.setMem v).duration = m.duration := by
  cases m; rfl

@[simp] theorem startTime_setMem (m : Monitor) (v : Int) : (m.setMem v).startTime = m.startTime := by
  cases m; rfl

@[simp] theorem startMem_setMem (m : Monitor) (v : Int) : (m.setMem v).startMem = m.startMem := by
  cases m; rfl

@[simp] theorem exc_setMem (m : Monitor) (v : Int) : (m.setMem v).exc = m.exc := by
  cases m; rfl

@[simp] theorem children_setMem (m : Monitor) (v : Int) : (m.setMem v).children = m.children := by
  cases m; rfl

@[simp] theorem operation_setDuration (m : Monitor) (v : Rat) : (m.setDuration v).operation = m.operation := by
  cases m; rfl

@[simp] theorem hdf5path_setDuration (m : Monitor) (v : Rat) : (m.setDuration v).hdf5path = m.hdf5path := by
  cases m; rfl

@[simp] theorem pid_setDuration (m : Monitor) (v : Rat) : (m.setDuration v).pid = m.pid := by
  cases m; rfl

@[simp] theorem autoflush_setDuration (m : Monitor) (v : Rat) : (m.setDuration v).autoflush = m.autoflush := by
  cases m; rfl

@[simp] theorem measuremem_setDuration (m : Monitor) (v : Rat) : (m.setDuration v).measuremem = m.measuremem := by
  cases m; rfl

@[simp] theorem mem_setDuration (m : Monitor) (v : Rat) : (m.setDuration v).mem = m.mem := by
  cases m; rfl

@[simp] theorem duration_setDuration (m : Monitor) (v : Rat) : (m.setDuration v).duration = v := by
  cases m; rfl

@[simp] theorem startTime_setDuration (m : Monitor) (v : Rat) : (m.setDuration v).startTime = m.startTime := by
  cases m; rfl

@[simp] theorem startMem_setDuration (m : Monitor) (v : Rat) : (m.setDuration v).startMem = m.startMem := by
  cases m; rfl

@[simp] theorem exc_setDuration (m : Monitor) (v : Rat) : (m.setDuration v).exc = m.exc := by
  cases m; rfl

@[simp] theorem children_setDuration (m : Monitor) (v : Rat) : (m.setDuration v).children = m.children := by
  cases m; rfl

@[simp] theorem operation_setStartTime (m : Monitor) (v : Rat) : (m.setStartTime v).operation = m.operation := by
  cases m; rfl

@[simp] theorem hdf5path_setStartTime (m : Monitor) (v : Rat) : (m.setStartTime v).hdf5path = m.hdf5path := by
  cases m; rfl

@[simp] theorem pid_setStartTime (m : Monitor) (v : Rat) : (m.setStartTime v).pid = m.pid := by
  cases m; rfl

@[simp] theorem autoflush_setStartTime (m : Monitor) (v : Rat) : (m.setStartTime v).autoflush = m.autoflush := by
  cases m; rfl

@[simp] theorem measuremem_setStartTime (m : Monitor) (v : Rat) : (m.setStartTime v).measuremem = m.measuremem := by
  cases m; rfl

@[simp] theorem mem_setStartTime (m : Monitor) (v : Rat) : (m.setStartTime v).mem = m.mem := by
  cases m; rfl

@[simp] theorem duration_setStartTime (m : Monitor) (v : Rat) : (m.setStartTime v).duration = m.duration := by
  cases m; rfl

@[simp] theorem startTime_setStartTime (m : Monitor) (v : Rat) : (m.setStartTime v).startTime = v := by
  cases m; rfl

@[simp] theorem startMem_setStartTime (m : Monitor) (v : Rat) : (m.setStartTime v).startMem = m.startMem := by
  cases m; rfl

@[simp] theorem exc_setStartTime (m : Monitor) (v : Rat) : (m.setStartTime v).exc = m.exc := by
  cases m; rfl

@[simp] theorem children_setStartTime (m : Monitor) (v : Rat) : (m.setStartTime v).children = m.children := by
  cases m; rfl

@[simp] theorem operation_setStartMem (m : Monitor) (v : Option Int) : (m.setStartMem v).operation = m.operation := by
  cases m; rfl

@[simp] theorem hdf5path_setStartMem (m : Monitor) (v : Option Int) : (m.setStartMem v).hdf5path = m.hdf5path := by
  cases m; rfl

@[simp] theorem pid_setStartMem (m : Monitor) (v : Option Int) : (m.setStartMem v).pid = m.pid := by
  cases m; rfl

@[simp] theorem autoflush_setStartMem (m : Monitor) (v : Option Int) : (m.setStartMem v).autoflush = m.autoflush := by
  cases m; rfl

@[simp] theorem measuremem_setStartMem (m : Monitor) (v : Option Int) : (m.setStartMem v).measuremem = m.measuremem := by
  cases m; rfl

@[simp] theorem mem_setStartMem (m : Monitor) (v : Option Int) : (m.setStartMem v).mem = m.mem := by
  cases m; rfl

@[simp] theorem duration_setStartMem (m : Monitor) (v : Option Int) : (m.setStartMem v).duration = m.duration := by
  cases m; rfl

@[simp] theorem startTime_setStartMem (m : Monitor) (v : Option Int) : (m.setStartMem v).startTime = m.startTime := by
  cases m; rfl

@[simp] theorem startMem_setStartMem (m : Monitor) (v : Option Int) : (m.setStartMem v).startMem = v := by
  cases m; rfl

@[simp] theorem exc_setStartMem (m : Monitor) (v : Option Int) : (m.setStartMem v).exc = m.exc := by
  cases m; rfl

@[simp] theorem children_setStartMem (m : Monitor) (v : Option Int) : (m.setStartMem v).children = m.children := by
  cases m; rfl

@[simp] theorem operation_setExc (m : Monitor) (v : Option PyExc) : (m.setExc v).operation = m.operation := by
  cases m; rfl

@[simp] theorem hdf5path_setExc (m : Monitor) (v : Option PyExc) : (m.setExc v).hdf5path = m.hdf5path := by
  cases m; rfl

@[simp] theorem pid_setExc (m : Monitor) (v : Option PyExc) : (m.setExc v).pid = m.pid := by
  cases m; rfl

@[simp] theorem autoflush_setExc (m : Monitor) (v : Option PyExc) : (m.setExc v).autoflush = m.autoflush := by
  cases m; rfl

@[simp] theorem measuremem_setExc (m : Monitor) (v : Option PyExc) : (m.setExc v).measuremem = m.measuremem := by
  cases m; rfl

@[simp] theorem mem_setExc (m : Monitor) (v : Option PyExc) : (m.setExc v).mem = m.mem := by
  cases m; rfl

@[simp] theorem duration_setExc (m : Monitor) (v : Option PyExc) : (m.setExc v).duration = m.duration := by
  cases m; rfl

@[simp] theorem startTime_setExc (m : Monitor) (v : Option PyExc) : (m.setExc v).startTime = m.startTime := by
  cases m; rfl

@[simp] theorem startMem_setExc (m : Monitor) (v : Option PyExc) : (m.setExc v).startMem = m.startMem := by
  cases m; rfl

@[simp] theorem exc_setExc (m : Monitor) (v : Option PyExc) : (m.setExc v).exc = v := by
  cases m; rfl

@[simp] theorem children_setExc (m : Monitor) (v : Option PyExc) : (m.setExc v).children = m.children := by
  cases m; rfl

@[simp] theorem operation_setChildren (m : Monitor) (v : List Monitor) : (m.setChildren v).operation = m.operation := by
  cases m; rfl

@[simp] theorem hdf5path_setChildren (m : Monitor) (v : List Monitor) : (m.setChildren v).hdf5path = m.hdf5path := by
  cases m; rfl

@[simp] theorem pid_setChildren (m : Monitor) (v : List Monitor) : (m.setChildren v).pid = m.pid := by
  cases m; rfl

@[simp] theorem autoflush_setChildren (m : Monitor) (v : List Monitor) : (m.setChildren v).autoflush = m.autoflush := by
  cases m; rfl

@[simp] theorem measuremem_setChildren (m : Monitor) (v : List Monitor) : (m.setChildren v).measuremem = m.measuremem := by
  cases m; rfl

@[simp] theorem mem_setChildren (m : Monitor) (v : List Monitor) : (m.setChildren v).mem = m.mem := by
  cases m; rfl

@[simp] theorem duration_setChildren (m : Monitor) (v : List Monitor) : (m.setChildren v).duration = m.duration := by
  cases m; rfl

@[simp] theorem startTime_setChildren (m : Monitor) (v : List Monitor) : (m.setChildren v).startTime = m.startTime := by
  cases m; rfl

@[simp] theorem startMem_setChildren (m : Monitor) (v : List Monitor) : (m.setChildren v).startMem = m.startMem := by
  cases m; rfl

@[simp] theorem exc_setChildren (m : Monitor) (v : List Monitor) : (m.setChildren v).exc = m.exc := by
  cases m; rfl

@[simp] theorem children_setChildren (m : Monitor) (v : List Monitor) : (m.setChildren v).children = v := by
  cases m; rfl

@[simp] theorem zeroAcc_duration (m : Monitor) : (zeroAcc m).duration = 0 := by
  cases m; rfl

@[simp] theorem zeroAcc_mem (m : Monitor) : (zeroAcc m).mem = 0 := by
  cases m; rfl

@[simp] theorem zeroAcc_operation (m : Monitor) :
    (zeroAcc m).operation = m.operation := by cases m; rfl

@[simp] theorem zeroAcc_hdf5path (m : Monitor) :
    (zeroAcc m).hdf5path = m.hdf5path := by cases m; rfl

@[simp] theorem zeroAcc_pid (m : Monitor) : (zeroAcc m).pid = m.pid := by
  cases m; rfl

@[simp] theorem zeroAcc_autoflush (m : Monitor) :
    (zeroAcc m).autoflush = m.autoflush := by cases m; rfl

@[simp] theorem zeroAcc_measuremem (m : Monitor) :
    (zeroAcc m).measuremem = m.measuremem := by cases m; rfl

@[simp] theorem zeroAcc_startTime (m : Monitor) :
    (zeroAcc m).startTime = m.startTime := by cases m; rfl

@[simp] theorem zeroAcc_startMem (m : Monitor) :
    (zeroAcc m).startMem = m.startMem := by cases m; rfl

@[simp] theorem zeroAcc_exc (m : Monitor) : (zeroAcc m).exc = m.exc := by
  cases m; rfl

@[simp] theorem zeroAcc_children (m : Monitor) :
    (zeroAcc m).children = m.children := by cases m; rfl

@[simp] theorem zeroAcc_idem (m : Monitor) : zeroAcc (zeroAcc m) = zeroAcc m := by
  cases m; rfl

@[simp] theorem resetAccum_duration (m : Monitor) :
    (resetAccum m).duration = 0 := by cases m; rfl

@[simp] theorem resetAccum_mem (m : Monitor) : (resetAccum m).mem = 0 := by
  cases m; rfl

@[simp] theorem resetAccum_children (m : Monitor) :
    (resetAccum m).children = m.children.map zeroAcc := by cases m; rfl

@[simp] theorem resetAccum_operation (m : Monitor) :
    (resetAccum m).operation = m.operation := by cases m; rfl

@[simp] theorem resetAccum_hdf5path (m : Monitor) :
    (resetAccum m).hdf5path = m.hdf5path := by cases m; rfl

@[simp] theorem resetAccum_pid (m : Monitor) :
    (resetAccum m).pid = m.pid := by cases m; rfl

@[simp] theorem resetAccum_autoflush (m : Monitor) :
    (resetAccum m).autoflush = m.autoflush := by cases m; rfl

@[simp] theorem resetAccum_measuremem (m : Monitor) :
    (resetAccum m).measuremem = m.measuremem := by cases m; rfl

@[simp] theorem resetAccum_startTime (m : Monitor) :
    (resetAccum m).startTime = m.startTime := by cases m; rfl

@[simp] theorem resetAccum_startMem (m : Monitor) :
    (resetAccum m).startMem = m.startMem := by cases m; rfl

@[simp] theorem resetAccum_exc (m : Monitor) :
    (resetAccum m).exc = m.exc := by cases m; rfl

theorem resetAccum_idem (m : Monitor) :
    resetAccum (resetAccum m) = resetAccum m := by
  cases m with
  | mk op h p a mm mv d st sm e c =>
    simp [resetAccum, zeroAcc, Monitor.setDuration, Monitor.setMem,
      Monitor.setChildren, Monitor.children, List.map_map]
    intro a _
    cases a; rfl

/-- After the reset loop every entry of the collection list has zero
duration, so get_data returns no records. -/
theorem getData_resetAccum (m : Monitor) : getData (resetAccum m) = [] := by
  simp [getData, List.filterMap_eq_nil_iff]

/-- The state component of flush is the reset monitor on every branch. -/
theorem flush_fst (hasDS : Bool) (m : Monitor) :
    (flush hasDS m).1 = resetAccum m := by
  unfold flush
  by_cases h : (getData m).isEmpty
  · simp [h]
  · simp [h]
    cases m.hdf5path <;> simp

/-- The state component of flushCore is the reset monitor for every sink. -/
theorem flushCore_fst (sink : List Rec → SinkResult) (m : Monitor) :
    (flushCore sink m).1 = resetAccum m := by
  unfold flushCore
  by_cases h : (getData m).isEmpty <;> simp [h]

/-- A monitor all of whose collection entries have zero duration
produces no records. -/
theorem getData_eq_nil (m : Monitor) (h0 : m.duration = 0)
    (hc : ∀ c ∈ m.children, c.duration = 0) : getData m = [] := by
  simp [getData, List.filterMap_eq_nil_iff]
  exact ⟨h0, hc⟩

@[simp] theorem recOf_setChildren (m : Monitor) (l : List Monitor) :
    recOf (m.setChildren l) = recOf m := by cases m; rfl

theorem measureMem_setExc (env : MemEnv) (m : Monitor) (x : Option PyExc) :
    measureMem env (m.setExc x) =
      ((measureMem env m).1, (measureMem env m).2.setExc x) := by
  cases m with
  | mk op h p a mm mv d st sm e c =>
    cases p with
    | none => rfl
    | some q =>
      by_cases hq : q = 0
      · simp [measureMem, Monitor.setExc, Monitor.pid, hq]
      · simp only [measureMem, Monitor.setExc, Monitor.pid, hq, if_false]
        cases env q <;> rfl

theorem measureMem_success (env : MemEnv) (m : Monitor) (r : Int)
    (h : (measureMem env m).1 = some r) : (measureMem env m).2 = m := by
  cases m with
  | mk op h5 p a mm mv d st sm e c =>
    cases p with
    | none => rfl
    | some q =>
      by_cases hq : q = 0
      · subst hq; rfl
      · simp only [measureMem, Monitor.pid] at h ⊢
        rw [if_neg hq] at h ⊢
        cases henv : env q with
        | ok rss => rfl
        | accessDenied =>
          rw [henv] at h
          simp at h

/-- A flush on a monitor that collects no records produces no effects. -/
theorem flush_snd_of_nil (hasDS : Bool) (m : Monitor) (h : getData m = []) :
    (flush hasDS m).2 = [] := by
  unfold flush
  simp [h]

/-- get_data never descends below the direct children: erasing the
grandchildren does not change the collected records. -/
theorem getData_prune (m : Monitor) :
    getData (pruneGrandchildren m) = getData m := by
  unfold getData pruneGrandchildren
  rw [children_setChildren, List.filterMap_cons, List.filterMap_cons,
    List.filterMap_map]
  have h1 : ((fun mon => if mon.duration = 0 then none else some (recOf mon))
        ∘ (fun c => c.setChildren [])) =
      (fun mon : Monitor =>
        if mon.duration = 0 then none else some (recOf mon)) := by
    funext c
    simp
  rw [h1]
  simp

/-- One cycle of a monitor that measures no memory and does not autoflush:
it succeeds, adds the elapsed time of the cycle to duration and preserves
the configuration, the accumulators otherwise, and the children. -/
theorem cycle1_ok (env : MemEnv) (ospid : Int) (hasDS : Bool) (m : Monitor)
    (p : Rat × Rat) (hm : m.measuremem = false) (ha : m.autoflush = false) :
    ∃ m1, cycle1 env ospid hasDS m p = .ok m1 ∧
      m1.duration = m.duration + (p.2 - p.1) ∧
      m1.measuremem = false ∧ m1.autoflush = false ∧
      m1.mem = m.mem ∧ m1.children = m.children := by
  unfold cycle1 exitM enterM
  cases hp : m.pid <;>
    simp only [hp, hm, ha, measuremem_setExc, measuremem_setStartTime,
      measuremem_setPid, if_false, Bool.false_eq_true, onExit,
      autoflush_setDuration, autoflush_setExc, autoflush_setStartTime,
      autoflush_setPid, ite_false] <;>
    exact ⟨_, rfl, by simp, by simp [hm], by simp [ha], by simp, by simp⟩

/-- Running a list of cycles on a monitor that measures no memory and does
not autoflush succeeds and adds the sum of the per-cycle elapsed times. -/
theorem runCycles_ok (env : MemEnv) (ospid : Int) (hasDS : Bool)
    (ts : List (Rat × Rat)) (m : Monitor) (hm : m.measuremem = false)
    (ha : m.autoflush = false) :
    ∃ m1, runCycles env ospid hasDS ts m = .ok m1 ∧
      m1.duration = m.duration + (ts.map (fun p => p.2 - p.1)).sum := by
  induction ts generalizing m with
  | nil => exact ⟨m, rfl, by simp⟩
  | cons p rest ih =>
    obtain ⟨m1, hc, hd, hmm, haf, _, _⟩ := cycle1_ok env ospid hasDS m p hm ha
    obtain ⟨m2, hr, hd2⟩ := ih m1 hmm haf
    refine ⟨m2, ?_, ?_⟩
    · unfold runCycles
      rw [hc]
      exact hr
    · rw [hd2, hd]
      simp [List.sum_cons]
      ring

/-! Claim theorems. -/

/-- C1 counterexample: the call operation copies vars(self) minus only
operation, children and pid, so a parent with nonzero accumulators spawns
a child whose duration and mem equal the parent values, contradicting the
claim that the child accumulators start at zero independent of the parent
accumulators. -/
theorem c1_child_inherits_accumulators :
    ((callM (Monitor.mk "parent" none none false false 3 5 0 none none [])
        "child" noOverrides).2.duration = 5) ∧
    ¬ ((callM (Monitor.mk "parent" none none false false 3 5 0 none none [])
        "child" noOverrides).2.duration = 0) ∧
    ((callM (Monitor.mk "parent" none none false false 3 5 0 none none [])
        "child" noOverrides).2.mem = 3) := by
  refine ⟨rfl, ?_, rfl⟩
  decide

/-- C1 as amended: spawning a named child returns a monitor of the same
concrete kind with a fresh empty children list and pid unset unless
overridden, and copies from the parent every other instance attribute —
the configuration fields hdf5path, autoflush and measuremem (unless
overridden by the supplied options) but also the current accumulators mem
and duration, the start time, the start memory sample and the last
exception; the child is appended to the parent children list and the
parent is otherwise unchanged. -/
theorem c1_spawn_child_copies_vars (m : Monitor) (op : String)
    (kw : Overrides) :
    (callM m op kw).2.operation = op ∧
    (callM m op kw).2.children = [] ∧
    (callM m op kw).2.pid = kw.pid.getD none ∧
    (callM m op kw).2.hdf5path = kw.hdf5path.getD m.hdf5path ∧
    (callM m op kw).2.autoflush = kw.autoflush.getD m.autoflush ∧
    (callM m op kw).2.measuremem = kw.measuremem.getD m.measuremem ∧
    (callM m op kw).2.mem = m.mem ∧
    (callM m op kw).2.duration = m.duration ∧
    (callM m op kw).2.startTime = m.startTime ∧
    (callM m op kw).2.startMem = m.startMem ∧
    (callM m op kw).2.exc = m.exc ∧
    (callM m op kw).1.children = m.children ++ [(callM m op kw).2] ∧
    (callM m op kw).1.operation = m.operation ∧
    (callM m op kw).1.duration = m.duration ∧
    (callM m op kw).1.mem = m.mem ∧
    (callM m op kw).1.pid = m.pid := by
  obtain ⟨kh, kp, ka, km⟩ := kw
  cases m with
  | mk mop mh mp ma mmm mv md mst msm me mc =>
    cases kh <;> cases kp <;> cases ka <;> cases km <;>
      exact ⟨rfl, rfl, rfl, rfl, rfl, rfl, rfl, rfl, rfl, rfl, rfl, rfl,
        rfl, rfl, rfl, rfl⟩

/-- C2: the claim describes graceful degradation, but the code is wrong at
its own stated intent: after AccessDenied, measure_mem returns None and
pid is cleared to 0 as intended, yet __exit__ then computes
stop_mem - start_mem with a None operand, so the scope-exit bookkeeping
raises TypeError and the duration of the cycle is lost (here the monitor
entered at time 0 and exited at time 1 still has duration 0). -/
theorem c2_access_denied_exit_raises :
    ((enterM (fun _ => MemResult.accessDenied) 7 0
        (Monitor.init "op" none none false true 0)).pid = some 0) ∧
    ((exitM (fun _ => MemResult.accessDenied) none 1 false
        (enterM (fun _ => MemResult.accessDenied) 7 0
          (Monitor.init "op" none none false true 0))).raised
        = some PyExc.typeError) ∧
    ((exitM (fun _ => MemResult.accessDenied) none 1 false
        (enterM (fun _ => MemResult.accessDenied) 7 0
          (Monitor.init "op" none none false true 0))).mon.duration = 0) :=
  ⟨rfl, rfl, rfl⟩

/-- C3: when the measured scope exits abnormally with an error and the
memory samples are available (or memory measurement is off), the exit
handler raises nothing of its own, returns the falsy suppress value so the
same error propagates to the caller, stores the error on the monitor for
inspection, and still adds the elapsed time of the partial execution to
the accumulated duration. -/
theorem c3_exit_abnormal_bookkeeping (env : MemEnv) (m : Monitor)
    (e : PyExc) (t : Rat) (hasDS : Bool) (ha : m.autoflush = false)
    (hm : m.measuremem = true →
      (∃ s, m.startMem = some s) ∧ ∃ r, (measureMem env m).1 = some r) :
    (exitM env (some e) t hasDS m).raised = none ∧
    (exitM env (some e) t hasDS m).suppress = false ∧
    (exitM env (some e) t hasDS m).effs = [] ∧
    (exitM env (some e) t hasDS m).mon.exc = some e ∧
    (exitM env (some e) t hasDS m).mon.duration
      = m.duration + (t - m.startTime) := by
  unfold exitM
  cases hmm : m.measuremem with
  | false => simp [hmm, onExit, ha]
  | true =>
    obtain ⟨⟨s, hs⟩, r, hr⟩ := hm hmm
    have h2 := measureMem_success env m r hr
    simp [hmm, measureMem_setExc, hr, h2, hs, onExit, ha]

/-- C3 witness: a memory-measuring monitor with an available start sample
and a granting facility, exited abnormally at time 2 after entering at
time 0. -/
theorem c3_exit_abnormal_witness :
    (exitM (fun _ => MemResult.ok 20) (some (PyExc.user 0)) 2 false
        (Monitor.mk "op" none (some 3) false true 0 0 0 (some 10) none
          [])).raised = none ∧
    (exitM (fun _ => MemResult.ok 20) (some (PyExc.user 0)) 2 false
        (Monitor.mk "op" none (some 3) false true 0 0 0 (some 10) none
          [])).suppress = false ∧
    (exitM (fun _ => MemResult.ok 20) (some (PyExc.user 0)) 2 false
        (Monitor.mk "op" none (some 3) false true 0 0 0 (some 10) none
          [])).effs = [] ∧
    (exitM (fun _ => MemResult.ok 20) (some (PyExc.user 0)) 2 false
        (Monitor.mk "op" none (some 3) false true 0 0 0 (some 10) none
          [])).mon.exc = some (PyExc.user 0) ∧
    (exitM (fun _ => MemResult.ok 20) (some (PyExc.user 0)) 2 false
        (Monitor.mk "op" none (some 3) false true 0 0 0 (some 10) none
          [])).mon.duration = 0 + (2 - 0) :=
  c3_exit_abnormal_bookkeeping (fun _ => MemResult.ok 20)
    (Monitor.mk "op" none (some 3) false true 0 0 0 (some 10) none [])
    (PyExc.user 0) 2 false rfl (fun _ => ⟨⟨10, rfl⟩, 20, rfl⟩)

/-- C4: after a flush, with no intervening enter or exit on the monitor or
its direct children, collecting again yields no records and a second flush
produces no effects and leaves the state unchanged. -/
theorem c4_flush_collect_idempotent (m : Monitor) (h1 h2 : Bool) :
    getData (flush h1 m).1 = [] ∧
    (flush h2 (flush h1 m).1).2 = [] ∧
    (flush h2 (flush h1 m).1).1 = (flush h1 m).1 := by
  have hf := flush_fst h1 m
  have hg : getData (flush h1 m).1 = [] := by
    rw [hf]; exact getData_resetAccum m
  refine ⟨hg, flush_snd_of_nil h2 _ hg, ?_⟩
  rw [flush_fst, hf, resetAccum_idem]

/-- C5: get_data considers exactly the monitor and its direct children —
erasing grandchildren changes nothing — and emits one record per entry
with nonzero duration and for no other entry, carrying the operation
truncated to the 50-byte field, the accumulated duration, the memory
delta in megabytes (exactly 0 when memory measurement is disabled for the
entry) and a count of 1. -/
theorem c5_get_data_records (m : Monitor) :
    getData (pruneGrandchildren m) = getData m ∧
    getData m = (m :: m.children).filterMap
      (fun mon => if mon.duration = 0 then none else some (recOf mon)) ∧
    (∀ mon : Monitor,
      (recOf mon).counts = 1 ∧
      (recOf mon).operation.length ≤ 50 ∧
      (recOf mon).time_sec = mon.duration ∧
      (recOf mon).memory_mb =
        (if mon.measuremem then (mon.mem : Rat) / 1024 / 1024 else 0)) := by
  refine ⟨getData_prune m, rfl, fun mon => ⟨rfl, ?_, rfl, rfl⟩⟩
  show (mon.operation.toList.take 50).length ≤ 50
  rw [List.length_take]
  exact min_le_left _ _

/-- C6: running any number of enter and exit cycles on a monitor that does
not measure memory and does not autoflush accumulates in duration exactly
the sum of the per-cycle elapsed times; when every exit timestamp is at
least its enter timestamp the duration never decreases, entering alone
leaves duration unchanged, and a flush is what sets it to 0. -/
theorem c6_duration_accumulation (env : MemEnv) (ospid : Int)
    (hasDS : Bool) (m : Monitor) (ts : List (Rat × Rat)) (t0 : Rat)
    (hm : m.measuremem = false) (ha : m.autoflush = false) :
    ∃ m1, runCycles env ospid hasDS ts m = .ok m1 ∧
      m1.duration = m.duration + (ts.map (fun p => p.2 - p.1)).sum ∧
      ((∀ p ∈ ts, p.1 ≤ p.2) → m.duration ≤ m1.duration) ∧
      (enterM env ospid t0 m).duration = m.duration ∧
      (flush hasDS m).1.duration = 0 := by
  obtain ⟨m1, h1, h2⟩ := runCycles_ok env ospid hasDS ts m hm ha
  refine ⟨m1, h1, h2, ?_, ?_, ?_⟩
  · intro hle
    rw [h2]
    have hnn : 0 ≤ (ts.map fun p => p.2 - p.1).sum := by
      apply List.sum_nonneg
      intro x hx
      rcases List.mem_map.1 hx with ⟨p, hp, rfl⟩
      linarith [hle p hp]
    linarith
  · cases hp : m.pid <;> simp [enterM, hp, hm]
  · rw [flush_fst]
    simp

/-- C6 witness: two cycles of lengths 2 and 1 on a fresh monitor with
memory measurement and autoflush off. -/
theorem c6_duration_witness :
    ∃ m1, runCycles (fun _ => MemResult.ok 0) 1 false [(0, 2), (5, 6)]
        (Monitor.mk "op" none none false false 0 0 0 none none [])
        = .ok m1 ∧
      m1.duration = (Monitor.mk "op" none none false false 0 0 0 none none
        []).duration
        + (([((0 : Rat), (2 : Rat)), (5, 6)]).map
            (fun p => p.2 - p.1)).sum ∧
      ((∀ p ∈ [((0 : Rat), (2 : Rat)), (5, 6)], p.1 ≤ p.2) →
        (Monitor.mk "op" none none false false 0 0 0 none none
          []).duration ≤ m1.duration) ∧
      (enterM (fun _ => MemResult.ok 0) 1 7
        (Monitor.mk "op" none none false false 0 0 0 none none
          [])).duration
        = (Monitor.mk "op" none none false false 0 0 0 none none
          []).duration ∧
      (flush false (Monitor.mk "op" none none false false 0 0 0 none none
          [])).1.duration = 0 :=
  c6_duration_accumulation (fun _ => MemResult.ok 0) 1 false
    (Monitor.mk "op" none none false false 0 0 0 none none [])
    [(0, 2), (5, 6)] 7 rfl rfl

/-- C7: a flush zeroes duration and mem for the monitor and each direct
child and changes nothing else: the children list keeps its length and
order, each child keeps its identity (operation, pid, configuration, its
own children), and the monitor keeps every other field. -/
theorem c7_flush_reset_frame (m : Monitor) (hasDS : Bool) :
    (flush hasDS m).1.duration = 0 ∧
    (flush hasDS m).1.mem = 0 ∧
    (flush hasDS m).1.children = m.children.map zeroAcc ∧
    (flush hasDS m).1.children.length = m.children.length ∧
    (flush hasDS m).1.operation = m.operation ∧
    (flush hasDS m).1.hdf5path = m.hdf5path ∧
    (flush hasDS m).1.pid = m.pid ∧
    (flush hasDS m).1.autoflush = m.autoflush ∧
    (flush hasDS m).1.measuremem = m.measuremem ∧
    (flush hasDS m).1.startTime = m.startTime ∧
    (flush hasDS m).1.exc = m.exc ∧
    (flush hasDS m).1.children.map Monitor.operation
      = m.children.map Monitor.operation ∧
    (flush hasDS m).1.children.map Monitor.pid
      = m.children.map Monitor.pid ∧
    (flush hasDS m).1.children.map Monitor.measuremem
      = m.children.map Monitor.measuremem ∧
    (flush hasDS m).1.children.map Monitor.children
      = m.children.map Monitor.children := by
  rw [flush_fst]
  simp [List.map_map, Function.comp_def]

/-- C8: when every entry of the collection list has zero accumulated
duration, flush produces no external effect at all: no dataset creation,
no append to the store and no console output. -/
theorem c8_empty_flush_writes_nothing (m : Monitor) (hasDS : Bool)
    (h0 : m.duration = 0) (hc : ∀ c ∈ m.children, c.duration = 0) :
    (flush hasDS m).2 = [] :=
  flush_snd_of_nil hasDS m (getData_eq_nil m h0 hc)

/-- C8 witness: a monitor with a configured destination, one child and
all-zero durations flushes with no effects. -/
theorem c8_empty_flush_witness :
    (flush false (Monitor.mk "op" (some "calc.hdf5") none false false
        0 0 0 none none
        [Monitor.mk "child" (some "calc.hdf5") none false false
          0 0 0 none none []])).2 = [] :=
  c8_empty_flush_writes_nothing
    (Monitor.mk "op" (some "calc.hdf5") none false false 0 0 0 none none
      [Monitor.mk "child" (some "calc.hdf5") none false false 0 0 0 none
        none []]) false rfl (by decide)

/-- C9 counterexample: get_records on the disabled variant does not
succeed as a no-op: DummyMonitor never sets the children attribute, so
the inherited get_data raises AttributeError on a concrete dummy. -/
theorem c9_dummy_get_records_raises :
    dummyGetData ⟨"dummy", none, none⟩
      = Except.error PyExc.attributeError := rfl

/-- C9 as amended: for the disabled variant, enter, exit, spawn and flush
succeed as no-ops — entering and exiting change nothing and never
suppress the block exception, spawning returns a fresh no-op instance of
the same variant, flushing writes nothing — while get_records, inherited
from the measuring class, fails with AttributeError because the dummy
never initializes children or the accumulators. -/
theorem c9_dummy_monitor_noop (d : DummyMonitor) (op : String)
    (e : Option PyExc) :
    dummyEnter d = d ∧
    dummyExit d e = (d, [], false) ∧
    dummyCall d op = ⟨op, none, none⟩ ∧
    dummyFlush d = (d, []) ∧
    dummyGetData d = Except.error PyExc.attributeError :=
  ⟨rfl, rfl, rfl, rfl, rfl⟩

/-- C10: flush zeroes the accumulators of the monitor and its direct
children before any persistence attempt and regardless of the sink
outcome — for every sink, including one that fails with an input-output
error, the resulting state is the reset state, with zero duration and
memory and nothing left to collect — so a failed write loses the records
while the accumulators are already reset; the concrete flush produces the
same state. -/
theorem c10_flush_resets_regardless_of_sink (m : Monitor)
    (sink : List Rec → SinkResult) (hasDS : Bool) :
    (flushCore sink m).1 = resetAccum m ∧
    (flushCore sink m).1.duration = 0 ∧
    (flushCore sink m).1.mem = 0 ∧
    getData (flushCore sink m).1 = [] ∧
    (flush hasDS m).1 = (flushCore sink m).1 := by
  have h := flushCore_fst sink m
  refine ⟨h, ?_, ?_, ?_, ?_⟩
  · rw [h]; simp
  · rw [h]; simp
  · rw [h]; exact getData_resetAccum m
  · rw [h, flush_fst]

end Perf
